import Mathlib

/-!
# OCPP charging-station facade: dispatch of inbound calls and outbound sends

A shallow embedding of `ocpp2.0/charging_station.go` (the charging-station
endpoint facade of OCPP 2.0) and of `ocpp1.6/remote_stop_transaction.go`.

The facade sits on top of the OCPP-J engine `ocppj.Client`, whose code is not
part of the embedded files.  Every call into the engine is therefore recorded
as an `Event` of a trace, and what the engine answers is a field of the
`Client` record.  Each function of the facade calls every engine operation
whose answer it uses at most once, so an answer that depends only on the
arguments loses nothing.

Go interface values that may be `nil` are `Option`s.  A run-time panic (method
call on a nil interface, failed type assertion) is an explicit outcome.
-/

namespace ocpp16

/-! ## OCPP 1.6: the RemoteStopTransaction feature -/

/-- Modelled from the spec: the type `RemoteStartStopStatus` is declared in
another file of the package; a status is its wire string, such as `Accepted`. -/
abbrev RemoteStartStopStatus := String

/-- Modelled from the spec: the constant `RemoteStopTransactionFeatureName` is
declared in another file of the package; it is the action name of the
remote-stop scenario. -/
def RemoteStopTransactionFeatureName : String := "RemoteStopTransaction"

/-- The struct `RemoteStopTransactionRequest`; the Go `int` is an integer, no
arithmetic is done on it. -/
structure RemoteStopTransactionRequest where
  TransactionId : Int
deriving DecidableEq, Repr

/-- The struct `RemoteStopTransactionConfirmation`. -/
structure RemoteStopTransactionConfirmation where
  Status : RemoteStartStopStatus
deriving DecidableEq, Repr

/-- The empty struct `RemoteStopTransactionFeature`. -/
structure RemoteStopTransactionFeature where
deriving DecidableEq, Repr

/-- The values of `reflect.Type` the feature hands out: the type descriptors of
the request struct and of the confirmation struct. -/
inductive GoType where
  | RemoteStopTransactionRequest
  | RemoteStopTransactionConfirmation
deriving DecidableEq, Repr

/-- The method `GetFeatureName` of the feature. -/
def RemoteStopTransactionFeature.GetFeatureName (_f : RemoteStopTransactionFeature) : String :=
  RemoteStopTransactionFeatureName

/-- The method `GetRequestType` of the feature:
`reflect.TypeOf(RemoteStopTransactionRequest{})`. -/
def RemoteStopTransactionFeature.GetRequestType (_f : RemoteStopTransactionFeature) : GoType :=
  GoType.RemoteStopTransactionRequest

/-- The method `GetConfirmationType` of the feature:
`reflect.TypeOf(RemoteStopTransactionConfirmation{})`. -/
def RemoteStopTransactionFeature.GetConfirmationType (_f : RemoteStopTransactionFeature) :
    GoType :=
  GoType.RemoteStopTransactionConfirmation

/-- The method `GetFeatureName` of the request. -/
def RemoteStopTransactionRequest.GetFeatureName (_r : RemoteStopTransactionRequest) : String :=
  RemoteStopTransactionFeatureName

/-- The method `GetFeatureName` of the confirmation. -/
def RemoteStopTransactionConfirmation.GetFeatureName (_c : RemoteStopTransactionConfirmation) :
    String :=
  RemoteStopTransactionFeatureName

/-- The constructor `NewRemoteStopTransactionRequest`. -/
def NewRemoteStopTransactionRequest (transactionId : Int) : RemoteStopTransactionRequest :=
  { TransactionId := transactionId }

/-- The constructor `NewRemoteStopTransactionConfirmation`. -/
def NewRemoteStopTransactionConfirmation (status : RemoteStartStopStatus) :
    RemoteStopTransactionConfirmation :=
  { Status := status }

end ocpp16

namespace ocpp2

/-! ## Values exchanged with the engine -/

namespace ocppj

/-- Modelled from the spec: the type `ocppj.ErrorCode` and its constants are
declared in the engine, outside the embedded files.  The constructors are the
wire error codes the spec lists for CALLERROR. -/
inductive ErrorCode where
  | NotImplemented
  | NotSupported
  | InternalError
  | ProtocolError
  | SecurityError
  | FormationViolation
  | PropertyConstraintViolation
  | OccurrenceConstraintViolation
  | TypeConstraintViolation
  | GenericError
deriving DecidableEq, Repr

end ocppj

open ocppj (ErrorCode)

/-- A Go `error` value that is not nil: the text its `Error()` method returns
and, when the value is a structured protocol error, the error code it carries
(`none` for a plain error such as one made by `fmt.Errorf`). -/
structure GoError where
  message : String
  code : Option ErrorCode
deriving DecidableEq, Repr

/-- The call `fmt.Errorf(text)`: a plain error carrying that text. -/
def fmtErrorf (text : String) : GoError :=
  { message := text, code := none }

/-- A non-nil `ocpp.Request`: the name of its dynamic Go type (for instance
`*reservation.CancelReservationRequest`), what its `GetFeatureName()` method
returns, and its content. -/
structure Request where
  dynType : String
  featureName : String
  payload : String
deriving DecidableEq, Repr

/-- The method `GetFeatureName()` of a request. -/
def Request.GetFeatureName (request : Request) : String :=
  request.featureName

/-- The struct a response pointer points to. -/
structure ResponseStruct where
  featureName : String
  payload : String
deriving DecidableEq, Repr

/-- A non-nil value of the interface type `ocpp.Response`: the name of its
dynamic Go type (for instance `*reservation.CancelReservationResponse`) and the
pointer it holds.  The pointer may itself be nil: a nil pointer of a concrete
type stored in the interface gives an interface value that is not nil. -/
structure Response where
  dynType : String
  pointer : Option ResponseStruct
deriving DecidableEq, Repr

/-- The part of `ocpp.Profile` the facade reads: its name. -/
structure Profile where
  Name : String
deriving DecidableEq, Repr

/-- What a handler method returns: a pointer to the response struct of the
action and an error; either may be nil. -/
abbrev HandlerResult := Option ResponseStruct × Option GoError

/-- Modelled from the spec: the interfaces `ChargingStationHandler` are declared
in the profile packages, outside the embedded files.  Each method `On<Action>`
takes the pointer to the request struct of the action and returns a pointer to
its response struct together with an error, the way the constructors and the
typed send methods of the library hand out pointers to structs.  A bound
handler is its method table: the method name and the request give the result. -/
structure ChargingStationHandler where
  method : String → Request → HandlerResult

/-- What a `select` over the channels `responseHandler` and `errorHandler`
receives. -/
inductive Selected where
  | response (response : Option Response)
  | protoError (err : Option GoError)
deriving DecidableEq, Repr

/-- The observable steps of a run: log lines, calls into the engine, calls of
handler methods, and receptions from the two channels. -/
inductive Event where
  | logError (requestId : String) (message : String)
  | clientSendRequest (request : Request)
  | clientSendResponse (requestId : String) (response : Response)
  | clientSendError (requestId : String) (code : ErrorCode) (description : String)
      (details : Option String)
  | handlerCall (method : String) (request : Request)
  | received (value : Selected)
deriving DecidableEq, Repr

/-- The engine `ocppj.Client` as the facade sees it: the registry lookup and
the error (or nil) each send operation returns. -/
structure Client where
  GetProfileForFeature : String → Option Profile
  SendRequest : Request → Option GoError
  SendResponse : String → Response → Option GoError
  SendError : String → ErrorCode → String → Option String → Option GoError

/-! ## Constants of the profile packages -/

namespace authorization
/-- Modelled from the spec: `authorization.ProfileName` is declared outside the
embedded files; a profile is identified by its name, taken to be the name of
its package. -/
def ProfileName : String := "authorization"
/-- Modelled from the spec: feature names are the PascalCase action names. -/
def AuthorizeFeatureName : String := "Authorize"
/-- Modelled from the spec: feature names are the PascalCase action names. -/
def ClearCacheFeatureName : String := "ClearCache"
end authorization

namespace availability
/-- Modelled from the spec: `availability.ProfileName`, the package name. -/
def ProfileName : String := "availability"
/-- Modelled from the spec: feature names are the PascalCase action names. -/
def ChangeAvailabilityFeatureName : String := "ChangeAvailability"
end availability

namespace data
/-- Modelled from the spec: `data.ProfileName`, the package name. -/
def ProfileName : String := "data"
/-- Modelled from the spec: feature names are the PascalCase action names. -/
def DataTransferFeatureName : String := "DataTransfer"
end data

namespace diagnostics
/-- Modelled from the spec: `diagnostics.ProfileName`, the package name. -/
def ProfileName : String := "diagnostics"
/-- Modelled from the spec: feature names are the PascalCase action names. -/
def ClearVariableMonitoringFeatureName : String := "ClearVariableMonitoring"
/-- Modelled from the spec: feature names are the PascalCase action names. -/
def CustomerInformationFeatureName : String := "CustomerInformation"
/-- Modelled from the spec: feature names are the PascalCase action names. -/
def GetLogFeatureName : String := "GetLog"
/-- Modelled from the spec: feature names are the PascalCase action names. -/
def GetMonitoringReportFeatureName : String := "GetMonitoringReport"
end diagnostics

namespace display
/-- Modelled from the spec: `display.ProfileName`, the package name. -/
def ProfileName : String := "display"
/-- Modelled from the spec: feature names are the PascalCase action names. -/
def ClearDisplayFeatureName : String := "ClearDisplay"
/-- Modelled from the spec: feature names are the PascalCase action names. -/
def GetDisplayMessagesFeatureName : String := "GetDisplayMessages"
end display

namespace firmware
/-- Modelled from the spec: `firmware.ProfileName`, the package name. -/
def ProfileName : String := "firmware"
/-- Modelled from the spec: feature names are the PascalCase action names. -/
def FirmwareStatusNotificationFeatureName : String := "FirmwareStatusNotification"
end firmware

namespace iso15118
/-- Modelled from the spec: `iso15118.ProfileName`, the package name. -/
def ProfileName : String := "iso15118"
/-- Modelled from the spec: feature names are the PascalCase action names. -/
def DeleteCertificateFeatureName : String := "DeleteCertificate"
/-- Modelled from the spec: feature names are the PascalCase action names. -/
def Get15118EVCertificateFeatureName : String := "Get15118EVCertificate"
/-- Modelled from the spec: feature names are the PascalCase action names. -/
def GetCertificateStatusFeatureName : String := "GetCertificateStatus"
/-- Modelled from the spec: feature names are the PascalCase action names. -/
def GetInstalledCertificateIdsFeatureName : String := "GetInstalledCertificateIds"
end iso15118

namespace localauth
/-- Modelled from the spec: `localauth.ProfileName`, the name of the profile,
spelled as in the handler field of the profile. -/
def ProfileName : String := "localAuthList"
/-- Modelled from the spec: feature names are the PascalCase action names. -/
def GetLocalListVersionFeatureName : String := "GetLocalListVersion"
end localauth

namespace meter
/-- Modelled from the spec: `meter.ProfileName`, the package name. -/
def ProfileName : String := "meter"
end meter

namespace provisioning
/-- Modelled from the spec: `provisioning.ProfileName`, the package name. -/
def ProfileName : String := "provisioning"
/-- Modelled from the spec: feature names are the PascalCase action names. -/
def BootNotificationFeatureName : String := "BootNotification"
/-- Modelled from the spec: feature names are the PascalCase action names. -/
def GetBaseReportFeatureName : String := "GetBaseReport"
end provisioning

namespace remotecontrol
/-- Modelled from the spec: `remotecontrol.ProfileName`, the name of the profile,
spelled as in the handler field of the profile. -/
def ProfileName : String := "remoteControl"
end remotecontrol

namespace reservation
/-- Modelled from the spec: `reservation.ProfileName`, the package name. -/
def ProfileName : String := "reservation"
/-- Modelled from the spec: feature names are the PascalCase action names. -/
def CancelReservationFeatureName : String := "CancelReservation"
end reservation

namespace security
/-- Modelled from the spec: `security.ProfileName`, the package name. -/
def ProfileName : String := "security"
/-- Modelled from the spec: feature names are the PascalCase action names. -/
def CertificateSignedFeatureName : String := "CertificateSigned"
end security

namespace smartcharging
/-- Modelled from the spec: `smartcharging.ProfileName`, the name of the profile,
spelled as in the handler field of the profile. -/
def ProfileName : String := "smartCharging"
/-- Modelled from the spec: feature names are the PascalCase action names. -/
def ClearChargingProfileFeatureName : String := "ClearChargingProfile"
/-- Modelled from the spec: feature names are the PascalCase action names. -/
def ClearedChargingLimitFeatureName : String := "ClearedChargingLimit"
/-- Modelled from the spec: feature names are the PascalCase action names. -/
def GetChargingProfilesFeatureName : String := "GetChargingProfiles"
/-- Modelled from the spec: feature names are the PascalCase action names. -/
def GetCompositeScheduleFeatureName : String := "GetCompositeSchedule"
end smartcharging

namespace tariffcost
/-- Modelled from the spec: `tariffcost.ProfileName`, the name of the profile,
spelled as in the handler field of the profile. -/
def ProfileName : String := "tariffCost"
/-- Modelled from the spec: feature names are the PascalCase action names. -/
def CostUpdatedFeatureName : String := "CostUpdated"
end tariffcost

namespace transactions
/-- Modelled from the spec: `transactions.ProfileName`, the package name. -/
def ProfileName : String := "transactions"
end transactions

/-! ## The charging station -/

/-- The struct `chargingStation`: the engine, one handler field per profile
(nil until its setter is called), and what a `select` over the two channels
would receive (`none` when neither channel ever becomes ready). -/
structure chargingStation where
  client : Client
  securityHandler : Option ChargingStationHandler
  provisioningHandler : Option ChargingStationHandler
  authorizationHandler : Option ChargingStationHandler
  localAuthListHandler : Option ChargingStationHandler
  transactionsHandler : Option ChargingStationHandler
  remoteControlHandler : Option ChargingStationHandler
  availabilityHandler : Option ChargingStationHandler
  reservationHandler : Option ChargingStationHandler
  tariffCostHandler : Option ChargingStationHandler
  meterHandler : Option ChargingStationHandler
  smartChargingHandler : Option ChargingStationHandler
  firmwareHandler : Option ChargingStationHandler
  iso15118Handler : Option ChargingStationHandler
  diagnosticsHandler : Option ChargingStationHandler
  displayHandler : Option ChargingStationHandler
  dataHandler : Option ChargingStationHandler
  channels : Option Selected

/-- The run-time panics the facade can raise. -/
inductive Panic where
  | nilHandler
  | typeAssertion
  | nilError
deriving DecidableEq, Repr

/-- How a run of `handleIncomingRequest` ends. -/
inductive Outcome where
  | returned
  | panicked (reason : Panic)
deriving DecidableEq, Repr

/-- A run of a function that returns no value: its trace and how it ended. -/
structure Run where
  trace : List Event
  outcome : Outcome
deriving DecidableEq, Repr

/-- The text logged when a reply could not be sent. -/
def replyFailedText (err : GoError) : String :=
  "unknown error " ++ err.message ++ " while replying to message with CallError"

/-- The log line written when the engine returned `err` from a send. -/
def logSendFailure (requestId : String) (err : Option GoError) : List Event :=
  match err with
  | some e => [Event.logError requestId (replyFailedText e)]
  | none => []

/-- The method `sendResponse` (lines 248-261). -/
def sendResponse (cs : chargingStation) (response : Option Response) (err : Option GoError)
    (requestId : String) : Run :=
  match response with
  | some r =>
    { trace := Event.clientSendResponse requestId r
        :: logSendFailure requestId (cs.client.SendResponse requestId r),
      outcome := Outcome.returned }
  | none =>
    match err with
    | none => { trace := [], outcome := Outcome.panicked Panic.nilError }
    | some e =>
      { trace := Event.clientSendError requestId ErrorCode.ProtocolError e.message none
          :: logSendFailure requestId
               (cs.client.SendError requestId ErrorCode.ProtocolError e.message none),
        outcome := Outcome.returned }

/-- The method `notImplementedError` (lines 272-278). -/
def notImplementedError (cs : chargingStation) (requestId : String) (action : String) : Run :=
  { trace :=
      Event.logError requestId "cannot handle call from CSMS. Sending CallError instead"
      :: Event.clientSendError requestId ErrorCode.NotImplemented
           ("no handler for action " ++ action ++ " implemented") none
      :: logSendFailure requestId
           (cs.client.SendError requestId ErrorCode.NotImplemented
             ("no handler for action " ++ action ++ " implemented") none),
    outcome := Outcome.returned }

/-- The method `notSupportedError` (lines 280-286). -/
def notSupportedError (cs : chargingStation) (requestId : String) (action : String) : Run :=
  { trace :=
      Event.logError requestId "cannot handle call from CSMS. Sending CallError instead"
      :: Event.clientSendError requestId ErrorCode.NotSupported
           ("unsupported action " ++ action ++ " on charging station") none
      :: logSendFailure requestId
           (cs.client.SendError requestId ErrorCode.NotSupported
             ("unsupported action " ++ action ++ " on charging station") none),
    outcome := Outcome.returned }

/-- The guard of `handleIncomingRequest` (lines 295-361): `supported` starts
true and the switch over `profile.Name` clears it when the handler field of the
named profile is nil. -/
def supported (cs : chargingStation) (profile : Profile) : Bool :=
  if profile.Name = authorization.ProfileName then cs.authorizationHandler.isSome
  else if profile.Name = availability.ProfileName then cs.availabilityHandler.isSome
  else if profile.Name = data.ProfileName then cs.dataHandler.isSome
  else if profile.Name = diagnostics.ProfileName then cs.diagnosticsHandler.isSome
  else if profile.Name = display.ProfileName then cs.displayHandler.isSome
  else if profile.Name = firmware.ProfileName then cs.firmwareHandler.isSome
  else if profile.Name = iso15118.ProfileName then cs.iso15118Handler.isSome
  else if profile.Name = localauth.ProfileName then cs.localAuthListHandler.isSome
  else if profile.Name = meter.ProfileName then cs.meterHandler.isSome
  else if profile.Name = provisioning.ProfileName then cs.provisioningHandler.isSome
  else if profile.Name = remotecontrol.ProfileName then cs.remoteControlHandler.isSome
  else if profile.Name = reservation.ProfileName then cs.reservationHandler.isSome
  else if profile.Name = security.ProfileName then cs.securityHandler.isSome
  else if profile.Name = smartcharging.ProfileName then cs.smartChargingHandler.isSome
  else if profile.Name = tariffcost.ProfileName then cs.tariffCostHandler.isSome
  else if profile.Name = transactions.ProfileName then cs.transactionsHandler.isSome
  else true

/-- What one pass through the dispatch switch of `handleIncomingRequest`
yields: the handler call made and the values assigned to `response` and `err`,
a panic, or the `default` case. -/
inductive Dispatched where
  | assigned (call : Event) (response : Option Response) (err : Option GoError)
  | panic (reason : Panic)
  | unsupported

/-- One case of the dispatch switch:
`response, err = handler.method(request.(requestType))`.  The type assertion is
evaluated first and panics when the dynamic type of the request is another one;
then calling the method on a nil handler panics.  The pointer the method
returns is stored in the interface variable `response`, which is therefore not
nil afterwards, even when the pointer is. -/
def invoke (handler : Option ChargingStationHandler) (method : String) (requestType : String)
    (responseType : String) (request : Request) : Dispatched :=
  if request.dynType = requestType then
    match handler with
    | none => Dispatched.panic Panic.nilHandler
    | some h =>
      Dispatched.assigned (Event.handlerCall method request)
        (some { dynType := responseType, pointer := (h.method method request).1 })
        (h.method method request).2
  else Dispatched.panic Panic.typeAssertion

/-- The dispatch switch of `handleIncomingRequest` (lines 371-413). -/
def dispatch (cs : chargingStation) (request : Request) (action : String) : Dispatched :=
  if action = reservation.CancelReservationFeatureName then
    invoke cs.reservationHandler "OnCancelReservation"
      "*reservation.CancelReservationRequest" "*reservation.CancelReservationResponse" request
  else if action = security.CertificateSignedFeatureName then
    invoke cs.securityHandler "OnCertificateSigned"
      "*security.CertificateSignedRequest" "*security.CertificateSignedResponse" request
  else if action = availability.ChangeAvailabilityFeatureName then
    invoke cs.availabilityHandler "OnChangeAvailability"
      "*availability.ChangeAvailabilityRequest" "*availability.ChangeAvailabilityResponse" request
  else if action = authorization.ClearCacheFeatureName then
    invoke cs.authorizationHandler "OnClearCache"
      "*authorization.ClearCacheRequest" "*authorization.ClearCacheResponse" request
  else if action = smartcharging.ClearChargingProfileFeatureName then
    invoke cs.smartChargingHandler "OnClearChargingProfile"
      "*smartcharging.ClearChargingProfileRequest" "*smartcharging.ClearChargingProfileResponse" request
  else if action = display.ClearDisplayFeatureName then
    invoke cs.displayHandler "OnClearDisplay"
      "*display.ClearDisplayRequest" "*display.ClearDisplayResponse" request
  else if action = diagnostics.ClearVariableMonitoringFeatureName then
    invoke cs.diagnosticsHandler "OnClearVariableMonitoring"
      "*diagnostics.ClearVariableMonitoringRequest" "*diagnostics.ClearVariableMonitoringResponse" request
  else if action = tariffcost.CostUpdatedFeatureName then
    invoke cs.tariffCostHandler "OnCostUpdated"
      "*tariffcost.CostUpdatedRequest" "*tariffcost.CostUpdatedResponse" request
  else if action = diagnostics.CustomerInformationFeatureName then
    invoke cs.diagnosticsHandler "OnCustomerInformation"
      "*diagnostics.CustomerInformationRequest" "*diagnostics.CustomerInformationResponse" request
  else if action = data.DataTransferFeatureName then
    invoke cs.dataHandler "OnDataTransfer"
      "*data.DataTransferRequest" "*data.DataTransferResponse" request
  else if action = iso15118.DeleteCertificateFeatureName then
    invoke cs.iso15118Handler "OnDeleteCertificate"
      "*iso15118.DeleteCertificateRequest" "*iso15118.DeleteCertificateResponse" request
  else if action = provisioning.GetBaseReportFeatureName then
    invoke cs.provisioningHandler "OnGetBaseReport"
      "*provisioning.GetBaseReportRequest" "*provisioning.GetBaseReportResponse" request
  else if action = smartcharging.GetChargingProfilesFeatureName then
    invoke cs.smartChargingHandler "OnGetChargingProfiles"
      "*smartcharging.GetChargingProfilesRequest" "*smartcharging.GetChargingProfilesResponse" request
  else if action = smartcharging.GetCompositeScheduleFeatureName then
    invoke cs.smartChargingHandler "OnGetCompositeSchedule"
      "*smartcharging.GetCompositeScheduleRequest" "*smartcharging.GetCompositeScheduleResponse" request
  else if action = display.GetDisplayMessagesFeatureName then
    invoke cs.displayHandler "OnGetDisplayMessages"
      "*display.GetDisplayMessagesRequest" "*display.GetDisplayMessagesResponse" request
  else if action = iso15118.GetInstalledCertificateIdsFeatureName then
    invoke cs.iso15118Handler "OnGetInstalledCertificateIds"
      "*iso15118.GetInstalledCertificateIdsRequest" "*iso15118.GetInstalledCertificateIdsResponse" request
  else if action = localauth.GetLocalListVersionFeatureName then
    invoke cs.localAuthListHandler "OnGetLocalListVersion"
      "*localauth.GetLocalListVersionRequest" "*localauth.GetLocalListVersionResponse" request
  else if action = diagnostics.GetLogFeatureName then
    invoke cs.diagnosticsHandler "OnGetLog"
      "*diagnostics.GetLogRequest" "*diagnostics.GetLogResponse" request
  else if action = diagnostics.GetMonitoringReportFeatureName then
    invoke cs.diagnosticsHandler "OnGetMonitoringReport"
      "*diagnostics.GetMonitoringReportRequest" "*diagnostics.GetMonitoringReportResponse" request
  else Dispatched.unsupported

/-- The method `handleIncomingRequest` (lines 288-415).  The second registry
lookup (line 369) has no effect: its result is discarded. -/
def handleIncomingRequest (cs : chargingStation) (request : Request) (requestId : String)
    (action : String) : Run :=
  match cs.client.GetProfileForFeature action with
  | none => notImplementedError cs requestId action
  | some profile =>
    if supported cs profile = false then notSupportedError cs requestId action
    else
      match dispatch cs request action with
      | Dispatched.unsupported => notSupportedError cs requestId action
      | Dispatched.panic reason => { trace := [], outcome := Outcome.panicked reason }
      | Dispatched.assigned call response err =>
        { trace := call :: (sendResponse cs response err requestId).trace,
          outcome := (sendResponse cs response err requestId).outcome }

/-! ## Outbound requests -/

/-- How a call of the blocking `SendRequest` ends: it returns a response and an
error (either may be nil), or it waits for ever on the two channels. -/
inductive SendResult where
  | returned (response : Option Response) (err : Option GoError)
  | blocked
deriving DecidableEq, Repr

/-- A run of `SendRequest`. -/
structure SendRun where
  trace : List Event
  result : SendResult
deriving DecidableEq, Repr

/-- The method `SendRequest` (lines 204-220). -/
def SendRequest (cs : chargingStation) (request : Request) : SendRun :=
  match cs.client.GetProfileForFeature request.GetFeatureName with
  | none =>
    { trace := [],
      result := SendResult.returned none (some (fmtErrorf
        ("feature " ++ request.GetFeatureName
          ++ " is unsupported on charging station (missing profile), cannot send request"))) }
  | some _ =>
    match cs.client.SendRequest request with
    | some err =>
      { trace := [Event.clientSendRequest request],
        result := SendResult.returned none (some err) }
    | none =>
      match cs.channels with
      | none => { trace := [Event.clientSendRequest request], result := SendResult.blocked }
      | some (Selected.response response) =>
        { trace := [Event.clientSendRequest request, Event.received (Selected.response response)],
          result := SendResult.returned response none }
      | some (Selected.protoError err) =>
        { trace := [Event.clientSendRequest request, Event.received (Selected.protoError err)],
          result := SendResult.returned none err }

/-- What becomes of the callback passed to `SendRequestAsync`: no goroutine was
started, the goroutine waits for ever, or it called the callback with these
arguments. -/
inductive Completion where
  | notStarted
  | waiting
  | called (response : Option Response) (err : Option GoError)
deriving DecidableEq, Repr

/-- A run of `SendRequestAsync`: the trace up to its return, the error it
returns (nil on success), and the fate of the callback. -/
structure AsyncRun where
  trace : List Event
  result : Option GoError
  completion : Completion
deriving DecidableEq, Repr

/-- The goroutine started by `SendRequestAsync` (lines 236-243). -/
def awaitReply (cs : chargingStation) : Completion :=
  match cs.channels with
  | none => Completion.waiting
  | some (Selected.response response) => Completion.called response none
  | some (Selected.protoError protoError) => Completion.called none protoError

/-- The method `SendRequestAsync` (lines 222-246). -/
def SendRequestAsync (cs : chargingStation) (request : Request) : AsyncRun :=
  match cs.client.GetProfileForFeature request.GetFeatureName with
  | none =>
    { trace := [],
      result := some (fmtErrorf
        ("feature " ++ request.GetFeatureName
          ++ " is unsupported on charging station (missing profile), cannot send request")),
      completion := Completion.notStarted }
  | some _ =>
    if request.GetFeatureName = authorization.AuthorizeFeatureName
        ∨ request.GetFeatureName = provisioning.BootNotificationFeatureName
        ∨ request.GetFeatureName = smartcharging.ClearedChargingLimitFeatureName
        ∨ request.GetFeatureName = data.DataTransferFeatureName
        ∨ request.GetFeatureName = firmware.FirmwareStatusNotificationFeatureName
        ∨ request.GetFeatureName = iso15118.Get15118EVCertificateFeatureName
        ∨ request.GetFeatureName = iso15118.GetCertificateStatusFeatureName then
      match cs.client.SendRequest request with
      | none =>
        { trace := [Event.clientSendRequest request],
          result := none,
          completion := awaitReply cs }
      | some err =>
        { trace := [Event.clientSendRequest request],
          result := some err,
          completion := Completion.notStarted }
    else
      { trace := [],
        result := some (fmtErrorf
          ("unsupported action " ++ request.GetFeatureName
            ++ " on charging station, cannot send request")),
        completion := Completion.notStarted }

/-! ## Vocabulary of the statements -/

/-- The sixteen profile packages imported by the facade. -/
inductive ProfilePackage where
  | authorization
  | availability
  | data
  | diagnostics
  | display
  | firmware
  | iso15118
  | localauth
  | meter
  | provisioning
  | remotecontrol
  | reservation
  | security
  | smartcharging
  | tariffcost
  | transactions
deriving DecidableEq, Repr

/-- The Go name of a profile package. -/
def ProfilePackage.goName : ProfilePackage → String
  | .authorization => "authorization"
  | .availability => "availability"
  | .data => "data"
  | .diagnostics => "diagnostics"
  | .display => "display"
  | .firmware => "firmware"
  | .iso15118 => "iso15118"
  | .localauth => "localauth"
  | .meter => "meter"
  | .provisioning => "provisioning"
  | .remotecontrol => "remotecontrol"
  | .reservation => "reservation"
  | .security => "security"
  | .smartcharging => "smartcharging"
  | .tariffcost => "tariffcost"
  | .transactions => "transactions"

/-- The constant `ProfileName` of a profile package. -/
def ProfilePackage.ProfileName : ProfilePackage → String
  | .authorization => authorization.ProfileName
  | .availability => availability.ProfileName
  | .data => data.ProfileName
  | .diagnostics => diagnostics.ProfileName
  | .display => display.ProfileName
  | .firmware => firmware.ProfileName
  | .iso15118 => iso15118.ProfileName
  | .localauth => localauth.ProfileName
  | .meter => meter.ProfileName
  | .provisioning => provisioning.ProfileName
  | .remotecontrol => remotecontrol.ProfileName
  | .reservation => reservation.ProfileName
  | .security => security.ProfileName
  | .smartcharging => smartcharging.ProfileName
  | .tariffcost => tariffcost.ProfileName
  | .transactions => transactions.ProfileName

/-- The handler field of a profile: the field of `chargingStation` whose Go
type is the `ChargingStationHandler` of that package (the one the setter
`Set<Profile>Handler` assigns). -/
def chargingStation.handlerOf (cs : chargingStation) : ProfilePackage → Option ChargingStationHandler
  | .authorization => cs.authorizationHandler
  | .availability => cs.availabilityHandler
  | .data => cs.dataHandler
  | .diagnostics => cs.diagnosticsHandler
  | .display => cs.displayHandler
  | .firmware => cs.firmwareHandler
  | .iso15118 => cs.iso15118Handler
  | .localauth => cs.localAuthListHandler
  | .meter => cs.meterHandler
  | .provisioning => cs.provisioningHandler
  | .remotecontrol => cs.remoteControlHandler
  | .reservation => cs.reservationHandler
  | .security => cs.securityHandler
  | .smartcharging => cs.smartChargingHandler
  | .tariffcost => cs.tariffCostHandler
  | .transactions => cs.transactionsHandler

/-- The nineteen actions that have a case in the dispatch switch. -/
inductive DispatchedAction where
  | CancelReservation
  | CertificateSigned
  | ChangeAvailability
  | ClearCache
  | ClearChargingProfile
  | ClearDisplay
  | ClearVariableMonitoring
  | CostUpdated
  | CustomerInformation
  | DataTransfer
  | DeleteCertificate
  | GetBaseReport
  | GetChargingProfiles
  | GetCompositeSchedule
  | GetDisplayMessages
  | GetInstalledCertificateIds
  | GetLocalListVersion
  | GetLog
  | GetMonitoringReport
deriving DecidableEq, Repr

/-- The feature-name constant a case of the dispatch switch compares with. -/
def DispatchedAction.FeatureName : DispatchedAction → String
  | .CancelReservation => reservation.CancelReservationFeatureName
  | .CertificateSigned => security.CertificateSignedFeatureName
  | .ChangeAvailability => availability.ChangeAvailabilityFeatureName
  | .ClearCache => authorization.ClearCacheFeatureName
  | .ClearChargingProfile => smartcharging.ClearChargingProfileFeatureName
  | .ClearDisplay => display.ClearDisplayFeatureName
  | .ClearVariableMonitoring => diagnostics.ClearVariableMonitoringFeatureName
  | .CostUpdated => tariffcost.CostUpdatedFeatureName
  | .CustomerInformation => diagnostics.CustomerInformationFeatureName
  | .DataTransfer => data.DataTransferFeatureName
  | .DeleteCertificate => iso15118.DeleteCertificateFeatureName
  | .GetBaseReport => provisioning.GetBaseReportFeatureName
  | .GetChargingProfiles => smartcharging.GetChargingProfilesFeatureName
  | .GetCompositeSchedule => smartcharging.GetCompositeScheduleFeatureName
  | .GetDisplayMessages => display.GetDisplayMessagesFeatureName
  | .GetInstalledCertificateIds => iso15118.GetInstalledCertificateIdsFeatureName
  | .GetLocalListVersion => localauth.GetLocalListVersionFeatureName
  | .GetLog => diagnostics.GetLogFeatureName
  | .GetMonitoringReport => diagnostics.GetMonitoringReportFeatureName

/-- The profile package that declares the feature of a dispatched action: the
package qualifying its feature-name constant in the dispatch switch. -/
def DispatchedAction.package : DispatchedAction → ProfilePackage
  | .CancelReservation => .reservation
  | .CertificateSigned => .security
  | .ChangeAvailability => .availability
  | .ClearCache => .authorization
  | .ClearChargingProfile => .smartcharging
  | .ClearDisplay => .display
  | .ClearVariableMonitoring => .diagnostics
  | .CostUpdated => .tariffcost
  | .CustomerInformation => .diagnostics
  | .DataTransfer => .data
  | .DeleteCertificate => .iso15118
  | .GetBaseReport => .provisioning
  | .GetChargingProfiles => .smartcharging
  | .GetCompositeSchedule => .smartcharging
  | .GetDisplayMessages => .display
  | .GetInstalledCertificateIds => .iso15118
  | .GetLocalListVersion => .localauth
  | .GetLog => .diagnostics
  | .GetMonitoringReport => .diagnostics

/-- The handler method of an action: `On` followed by the action name. -/
def DispatchedAction.method (a : DispatchedAction) : String :=
  "On" ++ a.FeatureName

/-- The Go type a decoded request of an action has: a pointer to the struct
`<Action>Request` of the package that declares the feature. -/
def DispatchedAction.requestType (a : DispatchedAction) : String :=
  "*" ++ a.package.goName ++ "." ++ a.FeatureName ++ "Request"

/-- The Go type of what the handler method of an action returns: a pointer to
the struct `<Action>Response` of the package that declares the feature. -/
def DispatchedAction.responseType (a : DispatchedAction) : String :=
  "*" ++ a.package.goName ++ "." ++ a.FeatureName ++ "Response"

/-- Whether an event is a reply written to the peer: a CALLRESULT
(`client.SendResponse`) or a CALLERROR (`client.SendError`). -/
def Event.isReply : Event → Bool
  | .clientSendResponse _ _ => true
  | .clientSendError _ _ _ _ => true
  | _ => false

/-- Whether an event is the call of a handler method. -/
def Event.isHandlerCall : Event → Bool
  | .handlerCall _ _ => true
  | _ => false

/-- The replies a run emitted, in order. -/
def Run.replies (r : Run) : List Event :=
  r.trace.filter Event.isReply

/-- The handler methods a run invoked, in order. -/
def Run.handlerCalls (r : Run) : List Event :=
  r.trace.filter Event.isHandlerCall

/-- An engine whose sends all succeed, over a given registry. -/
def quietClient (registry : String → Option Profile) : Client :=
  { GetProfileForFeature := registry,
    SendRequest := fun _ => none,
    SendResponse := fun _ _ => none,
    SendError := fun _ _ _ _ => none }

/-- A charging station on which no handler has been set. -/
def bareStation (client : Client) : chargingStation :=
  { client := client,
    securityHandler := none,
    provisioningHandler := none,
    authorizationHandler := none,
    localAuthListHandler := none,
    transactionsHandler := none,
    remoteControlHandler := none,
    availabilityHandler := none,
    reservationHandler := none,
    tariffCostHandler := none,
    meterHandler := none,
    smartChargingHandler := none,
    firmwareHandler := none,
    iso15118Handler := none,
    diagnosticsHandler := none,
    displayHandler := none,
    dataHandler := none,
    channels := none }

/-- The registry of a session on which the library's profiles are registered,
restricted to the features the facade names, plus `TransactionEvent`: each
feature is found under the profile of the package that declares it. -/
def standardRegistry (action : String) : Option Profile :=
  if action = reservation.CancelReservationFeatureName then
    some { Name := reservation.ProfileName }
  else if action = security.CertificateSignedFeatureName then
    some { Name := security.ProfileName }
  else if action = availability.ChangeAvailabilityFeatureName then
    some { Name := availability.ProfileName }
  else if action = authorization.ClearCacheFeatureName
      ∨ action = authorization.AuthorizeFeatureName then
    some { Name := authorization.ProfileName }
  else if action = smartcharging.ClearChargingProfileFeatureName
      ∨ action = smartcharging.GetChargingProfilesFeatureName
      ∨ action = smartcharging.GetCompositeScheduleFeatureName
      ∨ action = smartcharging.ClearedChargingLimitFeatureName then
    some { Name := smartcharging.ProfileName }
  else if action = display.ClearDisplayFeatureName
      ∨ action = display.GetDisplayMessagesFeatureName then
    some { Name := display.ProfileName }
  else if action = diagnostics.ClearVariableMonitoringFeatureName
      ∨ action = diagnostics.CustomerInformationFeatureName
      ∨ action = diagnostics.GetLogFeatureName
      ∨ action = diagnostics.GetMonitoringReportFeatureName then
    some { Name := diagnostics.ProfileName }
  else if action = tariffcost.CostUpdatedFeatureName then
    some { Name := tariffcost.ProfileName }
  else if action = data.DataTransferFeatureName then
    some { Name := data.ProfileName }
  else if action = iso15118.DeleteCertificateFeatureName
      ∨ action = iso15118.GetInstalledCertificateIdsFeatureName
      ∨ action = iso15118.Get15118EVCertificateFeatureName
      ∨ action = iso15118.GetCertificateStatusFeatureName then
    some { Name := iso15118.ProfileName }
  else if action = provisioning.GetBaseReportFeatureName
      ∨ action = provisioning.BootNotificationFeatureName then
    some { Name := provisioning.ProfileName }
  else if action = localauth.GetLocalListVersionFeatureName then
    some { Name := localauth.ProfileName }
  else if action = firmware.FirmwareStatusNotificationFeatureName then
    some { Name := firmware.ProfileName }
  else if action = "TransactionEvent" then
    some { Name := transactions.ProfileName }
  else none

/-- A reservation handler that accepts every cancellation. -/
def acceptingHandler : ChargingStationHandler :=
  { method := fun _ _ => (some { featureName := "CancelReservation", payload := "Accepted" }, none) }

/-- A handler that fails every call with a structured error whose code is
InternalError. -/
def failingHandler : ChargingStationHandler :=
  { method := fun _ _ => (none, some { message := "boom", code := some ErrorCode.InternalError }) }

/-- A handler that returns both a response and an error. -/
def confusedHandler : ChargingStationHandler :=
  { method := fun _ _ =>
      (some { featureName := "CancelReservation", payload := "Accepted" },
       some { message := "boom", code := none }) }

/-- A station on the standard registry whose only handler is the given
reservation handler. -/
def reservationStation (handler : ChargingStationHandler) : chargingStation :=
  { bareStation (quietClient standardRegistry) with reservationHandler := some handler }

/-- A registry that reports every action under the security profile. -/
def securityOnlyRegistry (_action : String) : Option Profile :=
  some { Name := security.ProfileName }

/-- A station on `securityOnlyRegistry` whose only handler is a security
handler. -/
def securityStation : chargingStation :=
  { bareStation (quietClient securityOnlyRegistry) with securityHandler := some acceptingHandler }

/-- A station on `securityOnlyRegistry` whose only handler is a reservation
handler. -/
def mismatchStation : chargingStation :=
  { bareStation (quietClient securityOnlyRegistry) with
    reservationHandler := some acceptingHandler }

/-- A decoded `CancelReservation` request. -/
def cancelRequest : Request :=
  { dynType := "*reservation.CancelReservationRequest",
    featureName := "CancelReservation",
    payload := "42" }

/-- Whether an event is a request handed to the engine (`client.SendRequest`). -/
def Event.isDelegation : Event → Bool
  | .clientSendRequest _ => true
  | _ => false

/-- Whether a run of `SendRequest` rejected the request before delegating to
the engine: it returned an error and never called `client.SendRequest`. -/
def SendRun.rejected (r : SendRun) : Bool :=
  !(r.trace.any Event.isDelegation) &&
    (match r.result with
     | SendResult.returned _ (some _) => true
     | _ => false)

/-- Whether a run of `SendRequestAsync` rejected the request before delegating
to the engine: it returned an error and never called `client.SendRequest`. -/
def AsyncRun.rejected (r : AsyncRun) : Bool :=
  !(r.trace.any Event.isDelegation) && r.result.isSome

/-- The feature names the switch of `SendRequestAsync` lets through. -/
def asyncActions : List String :=
  [authorization.AuthorizeFeatureName, provisioning.BootNotificationFeatureName,
   smartcharging.ClearedChargingLimitFeatureName, data.DataTransferFeatureName,
   firmware.FirmwareStatusNotificationFeatureName, iso15118.Get15118EVCertificateFeatureName,
   iso15118.GetCertificateStatusFeatureName]

/-- A `TransactionEvent` request, a feature the station sends to the CSMS. -/
def transactionEventRequest : Request :=
  { dynType := "*transactions.TransactionEventRequest",
    featureName := "TransactionEvent",
    payload := "" }

/-! ## Lemmas on the pieces of `handleIncomingRequest` -/

theorem logSendFailure_no_reply (requestId : String) (err : Option GoError) :
    (logSendFailure requestId err).filter Event.isReply = [] := by
  cases err <;> rfl

theorem logSendFailure_no_handlerCall (requestId : String) (err : Option GoError) :
    (logSendFailure requestId err).filter Event.isHandlerCall = [] := by
  cases err <;> rfl

theorem notImplementedError_replies (cs : chargingStation) (requestId action : String) :
    (notImplementedError cs requestId action).replies
      = [Event.clientSendError requestId ErrorCode.NotImplemented
          ("no handler for action " ++ action ++ " implemented") none] := by
  simp [notImplementedError, Run.replies, List.filter, Event.isReply, logSendFailure_no_reply]

theorem notImplementedError_handlerCalls (cs : chargingStation) (requestId action : String) :
    (notImplementedError cs requestId action).handlerCalls = [] := by
  simp [notImplementedError, Run.handlerCalls, List.filter, Event.isHandlerCall,
    logSendFailure_no_handlerCall]

theorem notSupportedError_replies (cs : chargingStation) (requestId action : String) :
    (notSupportedError cs requestId action).replies
      = [Event.clientSendError requestId ErrorCode.NotSupported
          ("unsupported action " ++ action ++ " on charging station") none] := by
  simp [notSupportedError, Run.replies, List.filter, Event.isReply, logSendFailure_no_reply]

theorem notSupportedError_handlerCalls (cs : chargingStation) (requestId action : String) :
    (notSupportedError cs requestId action).handlerCalls = [] := by
  simp [notSupportedError, Run.handlerCalls, List.filter, Event.isHandlerCall,
    logSendFailure_no_handlerCall]

/-- The guard reads exactly the handler field of the profile it is given. -/
theorem supported_eq_handlerOf (cs : chargingStation) (profile : Profile) (pkg : ProfilePackage)
    (hname : profile.Name = pkg.ProfileName) :
    supported cs profile = (cs.handlerOf pkg).isSome := by
  cases pkg <;>
    simp [supported, hname, ProfilePackage.ProfileName, chargingStation.handlerOf,
      authorization.ProfileName, availability.ProfileName, data.ProfileName,
      diagnostics.ProfileName, display.ProfileName, firmware.ProfileName,
      iso15118.ProfileName, localauth.ProfileName, meter.ProfileName,
      provisioning.ProfileName, remotecontrol.ProfileName, reservation.ProfileName,
      security.ProfileName, smartcharging.ProfileName, tariffcost.ProfileName,
      transactions.ProfileName]

/-- Every case of the dispatch switch calls, on the handler field of the
package that declares the action, the method named after the action, with the
request asserted to the request type of the action. -/
theorem dispatch_eq_invoke (cs : chargingStation) (request : Request) (a : DispatchedAction) :
    dispatch cs request a.FeatureName
      = invoke (cs.handlerOf a.package) a.method a.requestType a.responseType request := by
  cases a <;> rfl

/-- An action without a case in the dispatch switch reaches `default`. -/
theorem dispatch_default (cs : chargingStation) (request : Request) (action : String)
    (hnot : ∀ a : DispatchedAction, action ≠ a.FeatureName) :
    dispatch cs request action = Dispatched.unsupported := by
  have h1 : action ≠ reservation.CancelReservationFeatureName := hnot .CancelReservation
  have h2 : action ≠ security.CertificateSignedFeatureName := hnot .CertificateSigned
  have h3 : action ≠ availability.ChangeAvailabilityFeatureName := hnot .ChangeAvailability
  have h4 : action ≠ authorization.ClearCacheFeatureName := hnot .ClearCache
  have h5 : action ≠ smartcharging.ClearChargingProfileFeatureName := hnot .ClearChargingProfile
  have h6 : action ≠ display.ClearDisplayFeatureName := hnot .ClearDisplay
  have h7 : action ≠ diagnostics.ClearVariableMonitoringFeatureName :=
    hnot .ClearVariableMonitoring
  have h8 : action ≠ tariffcost.CostUpdatedFeatureName := hnot .CostUpdated
  have h9 : action ≠ diagnostics.CustomerInformationFeatureName := hnot .CustomerInformation
  have h10 : action ≠ data.DataTransferFeatureName := hnot .DataTransfer
  have h11 : action ≠ iso15118.DeleteCertificateFeatureName := hnot .DeleteCertificate
  have h12 : action ≠ provisioning.GetBaseReportFeatureName := hnot .GetBaseReport
  have h13 : action ≠ smartcharging.GetChargingProfilesFeatureName := hnot .GetChargingProfiles
  have h14 : action ≠ smartcharging.GetCompositeScheduleFeatureName :=
    hnot .GetCompositeSchedule
  have h15 : action ≠ display.GetDisplayMessagesFeatureName := hnot .GetDisplayMessages
  have h16 : action ≠ iso15118.GetInstalledCertificateIdsFeatureName :=
    hnot .GetInstalledCertificateIds
  have h17 : action ≠ localauth.GetLocalListVersionFeatureName := hnot .GetLocalListVersion
  have h18 : action ≠ diagnostics.GetLogFeatureName := hnot .GetLog
  have h19 : action ≠ diagnostics.GetMonitoringReportFeatureName := hnot .GetMonitoringReport
  simp only [dispatch, if_neg h1, if_neg h2, if_neg h3, if_neg h4, if_neg h5, if_neg h6,
    if_neg h7, if_neg h8, if_neg h9, if_neg h10, if_neg h11, if_neg h12, if_neg h13,
    if_neg h14, if_neg h15, if_neg h16, if_neg h17, if_neg h18, if_neg h19]

/-- A run that passes the guard and reaches a bound handler with a request of
the asserted type: the handler method is called and `sendResponse` replies with
what the call left in `response` and `err`. -/
theorem handleIncomingRequest_bound (cs : chargingStation) (request : Request)
    (requestId : String) (a : DispatchedAction) (profile : Profile)
    (handler : ChargingStationHandler)
    (hfound : cs.client.GetProfileForFeature a.FeatureName = some profile)
    (hsup : supported cs profile = true)
    (hbound : cs.handlerOf a.package = some handler)
    (htype : request.dynType = a.requestType) :
    handleIncomingRequest cs request requestId a.FeatureName
      = { trace := Event.handlerCall a.method request
            :: (sendResponse cs
                  (some { dynType := a.responseType,
                          pointer := (handler.method a.method request).1 })
                  (handler.method a.method request).2 requestId).trace,
          outcome := (sendResponse cs
                  (some { dynType := a.responseType,
                          pointer := (handler.method a.method request).1 })
                  (handler.method a.method request).2 requestId).outcome } := by
  simp [handleIncomingRequest, hfound, hsup, dispatch_eq_invoke, hbound, invoke, htype]

theorem sendResponse_some (cs : chargingStation) (response : Response) (err : Option GoError)
    (requestId : String) :
    (sendResponse cs (some response) err requestId).trace.filter Event.isReply
        = [Event.clientSendResponse requestId response]
      ∧ (sendResponse cs (some response) err requestId).trace.filter Event.isHandlerCall = []
      ∧ (sendResponse cs (some response) err requestId).outcome = Outcome.returned := by
  simp [sendResponse, List.filter, Event.isReply, Event.isHandlerCall, logSendFailure_no_reply,
    logSendFailure_no_handlerCall]

theorem sendResponse_error (cs : chargingStation) (err : GoError) (requestId : String) :
    (sendResponse cs none (some err) requestId).trace.filter Event.isReply
        = [Event.clientSendError requestId ErrorCode.ProtocolError err.message none]
      ∧ (sendResponse cs none (some err) requestId).trace.filter Event.isHandlerCall = []
      ∧ (sendResponse cs none (some err) requestId).outcome = Outcome.returned := by
  simp [sendResponse, List.filter, Event.isReply, Event.isHandlerCall, logSendFailure_no_reply,
    logSendFailure_no_handlerCall]

theorem sendResponse_no_handlerCall (cs : chargingStation) (response : Option Response)
    (err : Option GoError) (requestId : String) :
    (sendResponse cs response err requestId).trace.filter Event.isHandlerCall = [] := by
  cases response <;> cases err <;>
    simp [sendResponse, List.filter, Event.isHandlerCall, logSendFailure_no_handlerCall]

theorem sendResponse_outcome (cs : chargingStation) (response : Option Response)
    (err : Option GoError) (requestId : String) :
    (sendResponse cs response err requestId).outcome ≠ Outcome.panicked Panic.nilHandler := by
  cases response <;> cases err <;> simp [sendResponse]

theorem replies_after_call (method : String) (request : Request) (rest : List Event)
    (outcome : Outcome) :
    (Run.mk (Event.handlerCall method request :: rest) outcome).replies
      = rest.filter Event.isReply := rfl

theorem handlerCalls_after_call (method : String) (request : Request) (rest : List Event)
    (outcome : Outcome) :
    (Run.mk (Event.handlerCall method request :: rest) outcome).handlerCalls
      = Event.handlerCall method request :: rest.filter Event.isHandlerCall := rfl

/-! ## Inbound calls the station does not serve -/

/-- C1: an inbound CALL whose action the registry does not know gets exactly
one reply, a CALLERROR with code NotImplemented carrying the requestId of the
call, and no handler method is invoked, whatever handlers are bound. -/
theorem handleIncomingRequest_unknown_action (cs : chargingStation) (request : Request)
    (requestId action : String)
    (hunknown : cs.client.GetProfileForFeature action = none) :
    (handleIncomingRequest cs request requestId action).replies
        = [Event.clientSendError requestId ErrorCode.NotImplemented
            ("no handler for action " ++ action ++ " implemented") none]
      ∧ (handleIncomingRequest cs request requestId action).handlerCalls = []
      ∧ (handleIncomingRequest cs request requestId action).outcome = Outcome.returned := by
  have hrun : handleIncomingRequest cs request requestId action
      = notImplementedError cs requestId action := by
    simp [handleIncomingRequest, hunknown]
  rw [hrun]
  exact ⟨notImplementedError_replies cs requestId action,
    notImplementedError_handlerCalls cs requestId action, rfl⟩

/-- C2: an inbound CALL whose action the registry knows, under a profile whose
handler field is nil, gets exactly one reply, a CALLERROR with code
NotSupported carrying the requestId of the call, and no handler method is
invoked. -/
theorem handleIncomingRequest_unbound_handler (cs : chargingStation) (request : Request)
    (requestId action : String) (profile : Profile) (pkg : ProfilePackage)
    (hfound : cs.client.GetProfileForFeature action = some profile)
    (hname : profile.Name = pkg.ProfileName)
    (hnil : cs.handlerOf pkg = none) :
    (handleIncomingRequest cs request requestId action).replies
        = [Event.clientSendError requestId ErrorCode.NotSupported
            ("unsupported action " ++ action ++ " on charging station") none]
      ∧ (handleIncomingRequest cs request requestId action).handlerCalls = []
      ∧ (handleIncomingRequest cs request requestId action).outcome = Outcome.returned := by
  have hsup : supported cs profile = false := by
    rw [supported_eq_handlerOf cs profile pkg hname, hnil]; rfl
  have hrun : handleIncomingRequest cs request requestId action
      = notSupportedError cs requestId action := by
    simp [handleIncomingRequest, hfound, hsup]
  rw [hrun]
  exact ⟨notSupportedError_replies cs requestId action,
    notSupportedError_handlerCalls cs requestId action, rfl⟩

/-- Witness of C1: the unknown action of scenario S2 on a station without handlers. -/
theorem handleIncomingRequest_unknown_action_witness :
    (bareStation (quietClient standardRegistry)).client.GetProfileForFeature "DoTheHokeyPokey"
        = none
      ∧ (handleIncomingRequest (bareStation (quietClient standardRegistry))
            { dynType := "", featureName := "DoTheHokeyPokey", payload := "" }
            "m2" "DoTheHokeyPokey").replies
          = [Event.clientSendError "m2" ErrorCode.NotImplemented
              ("no handler for action " ++ "DoTheHokeyPokey" ++ " implemented") none]
      ∧ (handleIncomingRequest (bareStation (quietClient standardRegistry))
            { dynType := "", featureName := "DoTheHokeyPokey", payload := "" }
            "m2" "DoTheHokeyPokey").handlerCalls = []
      ∧ (handleIncomingRequest (bareStation (quietClient standardRegistry))
            { dynType := "", featureName := "DoTheHokeyPokey", payload := "" }
            "m2" "DoTheHokeyPokey").outcome = Outcome.returned :=
  ⟨by decide, handleIncomingRequest_unknown_action _ _ _ _ (by decide)⟩

/-- Witness of C2: scenario S3, `ClearCache` with no authorization handler. -/
theorem handleIncomingRequest_unbound_handler_witness :
    (bareStation (quietClient standardRegistry)).client.GetProfileForFeature "ClearCache"
        = some { Name := "authorization" }
      ∧ (bareStation (quietClient standardRegistry)).handlerOf ProfilePackage.authorization
        = none
      ∧ (handleIncomingRequest (bareStation (quietClient standardRegistry))
            { dynType := "*authorization.ClearCacheRequest", featureName := "ClearCache",
              payload := "" }
            "m3" "ClearCache").replies
          = [Event.clientSendError "m3" ErrorCode.NotSupported
              ("unsupported action " ++ "ClearCache" ++ " on charging station") none] :=
  ⟨by decide, rfl,
    (handleIncomingRequest_unbound_handler (bareStation (quietClient standardRegistry))
      { dynType := "*authorization.ClearCacheRequest", featureName := "ClearCache", payload := "" }
      "m3" "ClearCache" { Name := "authorization" } ProfilePackage.authorization
      (by decide) rfl rfl).1⟩

/-- C6: an inbound CALL whose action the registry knows but which has no case
in the dispatch switch (an action the station only sends, such as
BootNotification or Authorize) gets exactly one reply, a CALLERROR with code
NotSupported carrying the requestId of the call, and no handler method is
invoked; this holds whether or not the handler of its profile is bound. -/
theorem handleIncomingRequest_not_dispatched (cs : chargingStation) (request : Request)
    (requestId action : String) (profile : Profile)
    (hfound : cs.client.GetProfileForFeature action = some profile)
    (hnot : ∀ a : DispatchedAction, action ≠ a.FeatureName) :
    (handleIncomingRequest cs request requestId action).replies
        = [Event.clientSendError requestId ErrorCode.NotSupported
            ("unsupported action " ++ action ++ " on charging station") none]
      ∧ (handleIncomingRequest cs request requestId action).handlerCalls = []
      ∧ (handleIncomingRequest cs request requestId action).outcome = Outcome.returned := by
  have hrun : handleIncomingRequest cs request requestId action
      = notSupportedError cs requestId action := by
    by_cases hsup : supported cs profile = false
    · simp [handleIncomingRequest, hfound, hsup]
    · simp [handleIncomingRequest, hfound, hsup, dispatch_default cs request action hnot]
  rw [hrun]
  exact ⟨notSupportedError_replies cs requestId action,
    notSupportedError_handlerCalls cs requestId action, rfl⟩

/-- Witness of C6: `BootNotification` arrives at a station whose provisioning
handler is bound. -/
theorem handleIncomingRequest_not_dispatched_witness :
    (handleIncomingRequest
        { bareStation (quietClient standardRegistry) with
          provisioningHandler := some acceptingHandler }
        { dynType := "*provisioning.BootNotificationRequest",
          featureName := "BootNotification", payload := "" }
        "m6" "BootNotification").replies
        = [Event.clientSendError "m6" ErrorCode.NotSupported
            ("unsupported action " ++ "BootNotification" ++ " on charging station") none]
      ∧ (handleIncomingRequest
          { bareStation (quietClient standardRegistry) with
            provisioningHandler := some acceptingHandler }
          { dynType := "*provisioning.BootNotificationRequest",
            featureName := "BootNotification", payload := "" }
          "m6" "BootNotification").handlerCalls = []
      ∧ (handleIncomingRequest
          { bareStation (quietClient standardRegistry) with
            provisioningHandler := some acceptingHandler }
          { dynType := "*provisioning.BootNotificationRequest",
            featureName := "BootNotification", payload := "" }
          "m6" "BootNotification").outcome = Outcome.returned :=
  handleIncomingRequest_not_dispatched _ _ "m6" "BootNotification"
    { Name := "provisioning" } (by decide) (by intro a; cases a <;> decide)

/-! ## Inbound calls served by a handler -/

/-- C3, as the code has it: an inbound CALL for one of the nineteen dispatched
actions that passes the guard (the profile the registry reports is none of the
sixteen profile names, or its handler is bound), whose own handler field is
bound and whose request has the request type of the action, invokes exactly the
handler method of the action (`On<Action>`), once, with that request.  When the
handler returns a response that is not nil and no error, the one reply is the
CALLRESULT carrying the requestId of the call and that response. -/
theorem handleIncomingRequest_dispatches (cs : chargingStation) (request : Request)
    (requestId : String) (a : DispatchedAction) (profile : Profile)
    (handler : ChargingStationHandler)
    (hfound : cs.client.GetProfileForFeature a.FeatureName = some profile)
    (hsup : supported cs profile = true)
    (hbound : cs.handlerOf a.package = some handler)
    (htype : request.dynType = a.requestType) :
    (handleIncomingRequest cs request requestId a.FeatureName).handlerCalls
        = [Event.handlerCall ("On" ++ a.FeatureName) request]
      ∧ (∀ body : ResponseStruct,
          handler.method ("On" ++ a.FeatureName) request = (some body, none) →
          (handleIncomingRequest cs request requestId a.FeatureName).replies
              = [Event.clientSendResponse requestId
                  { dynType := a.responseType, pointer := some body }]
            ∧ (handleIncomingRequest cs request requestId a.FeatureName).outcome
              = Outcome.returned) := by
  rw [handleIncomingRequest_bound cs request requestId a profile handler hfound hsup hbound
    htype]
  refine ⟨?_, ?_⟩
  · rw [handlerCalls_after_call, sendResponse_no_handlerCall]
    rfl
  · intro body hres
    have hres2 : handler.method a.method request = (some body, none) := hres
    rw [hres2]
    have h := sendResponse_some cs { dynType := a.responseType, pointer := some body } none
      requestId
    exact ⟨(replies_after_call _ _ _ _).trans h.1, h.2.2⟩

/-- Witness of the amended C3: a `CancelReservation` call accepted by the
reservation handler. -/
theorem handleIncomingRequest_dispatches_witness :
    (handleIncomingRequest (reservationStation acceptingHandler) cancelRequest "m1"
        "CancelReservation").handlerCalls
        = [Event.handlerCall "OnCancelReservation" cancelRequest]
      ∧ (handleIncomingRequest (reservationStation acceptingHandler) cancelRequest "m1"
          "CancelReservation").replies
        = [Event.clientSendResponse "m1"
            { dynType := "*reservation.CancelReservationResponse",
              pointer := some { featureName := "CancelReservation", payload := "Accepted" } }] :=
  ⟨(handleIncomingRequest_dispatches (reservationStation acceptingHandler) cancelRequest "m1"
      DispatchedAction.CancelReservation { Name := "reservation" } acceptingHandler
      (by decide) (by decide) rfl rfl).1,
   ((handleIncomingRequest_dispatches (reservationStation acceptingHandler) cancelRequest "m1"
      DispatchedAction.CancelReservation { Name := "reservation" } acceptingHandler
      (by decide) (by decide) rfl rfl).2
      { featureName := "CancelReservation", payload := "Accepted" } rfl).1⟩

/-- Counterexample to C3 as stated, at three calls of `CancelReservation` with
a decoded request.  On a registry that reports the action under the security
profile: with the reservation handler bound and the security handler nil, the
guard answers NotSupported and no handler method is invoked; with the security
handler bound and the reservation handler nil, the run panics before any
handler method is invoked.  On the standard registry with the reservation
handler bound: the handler returns a nil response and an error, and the one
reply is a CALLRESULT, not a CALLERROR. -/
theorem handleIncomingRequest_dispatches_counterexample :
    mismatchStation.reservationHandler.isSome = true
      ∧ (handleIncomingRequest mismatchStation cancelRequest "m3"
          "CancelReservation").handlerCalls = []
      ∧ (handleIncomingRequest mismatchStation cancelRequest "m3" "CancelReservation").replies
        = [Event.clientSendError "m3" ErrorCode.NotSupported
            "unsupported action CancelReservation on charging station" none]
      ∧ securityStation.securityHandler.isSome = true
      ∧ (handleIncomingRequest securityStation cancelRequest "m3"
          "CancelReservation").handlerCalls = []
      ∧ (handleIncomingRequest securityStation cancelRequest "m3" "CancelReservation").replies
        = []
      ∧ failingHandler.method "OnCancelReservation" cancelRequest
        = (none, some { message := "boom", code := some ErrorCode.InternalError })
      ∧ (handleIncomingRequest (reservationStation failingHandler) cancelRequest "m3"
          "CancelReservation").replies
        = [Event.clientSendResponse "m3"
            { dynType := "*reservation.CancelReservationResponse", pointer := none }] := by
  refine ⟨rfl, by decide, by decide, rfl, by decide, by decide, rfl, by decide⟩

/-- C4, as the code has it: when the handler of a dispatched action (guard
passed, handler field of the action bound, request of the request type of the
action) returns both a response that is not nil and an error, the one reply is
the CALLRESULT carrying the requestId of the call and that response; the error
is dropped and no CALLERROR is emitted. -/
theorem handleIncomingRequest_response_and_error (cs : chargingStation) (request : Request)
    (requestId : String) (a : DispatchedAction) (profile : Profile)
    (handler : ChargingStationHandler) (body : ResponseStruct) (err : GoError)
    (hfound : cs.client.GetProfileForFeature a.FeatureName = some profile)
    (hsup : supported cs profile = true)
    (hbound : cs.handlerOf a.package = some handler)
    (htype : request.dynType = a.requestType)
    (hboth : handler.method ("On" ++ a.FeatureName) request = (some body, some err)) :
    (handleIncomingRequest cs request requestId a.FeatureName).replies
        = [Event.clientSendResponse requestId
            { dynType := a.responseType, pointer := some body }]
      ∧ (handleIncomingRequest cs request requestId a.FeatureName).handlerCalls
        = [Event.handlerCall ("On" ++ a.FeatureName) request]
      ∧ (handleIncomingRequest cs request requestId a.FeatureName).outcome
        = Outcome.returned := by
  rw [handleIncomingRequest_bound cs request requestId a profile handler hfound hsup hbound
    htype]
  have hres : handler.method a.method request = (some body, some err) := hboth
  rw [hres]
  have h := sendResponse_some cs { dynType := a.responseType, pointer := some body } (some err)
    requestId
  refine ⟨(replies_after_call _ _ _ _).trans h.1, ?_, h.2.2⟩
  rw [handlerCalls_after_call, h.2.1]
  rfl

/-- Witness of the amended C4 on the handler that returns both values. -/
theorem handleIncomingRequest_response_and_error_witness :
    (handleIncomingRequest (reservationStation confusedHandler) cancelRequest "m4"
        "CancelReservation").replies
        = [Event.clientSendResponse "m4"
            { dynType := "*reservation.CancelReservationResponse",
              pointer := some { featureName := "CancelReservation", payload := "Accepted" } }]
      ∧ (handleIncomingRequest (reservationStation confusedHandler) cancelRequest "m4"
          "CancelReservation").handlerCalls
        = [Event.handlerCall "OnCancelReservation" cancelRequest]
      ∧ (handleIncomingRequest (reservationStation confusedHandler) cancelRequest "m4"
          "CancelReservation").outcome = Outcome.returned :=
  handleIncomingRequest_response_and_error (reservationStation confusedHandler) cancelRequest
    "m4" DispatchedAction.CancelReservation { Name := "reservation" } confusedHandler
    { featureName := "CancelReservation", payload := "Accepted" }
    { message := "boom", code := none } (by decide) (by decide) rfl rfl rfl

/-- Counterexample to C4 as stated: the reservation handler returns both a
response and an error for the call `m4`; the reply is a CALLRESULT, and no
CALLERROR with code InternalError is emitted. -/
theorem handleIncomingRequest_response_and_error_counterexample :
    confusedHandler.method "OnCancelReservation" cancelRequest
        = (some { featureName := "CancelReservation", payload := "Accepted" },
           some { message := "boom", code := none })
      ∧ (handleIncomingRequest (reservationStation confusedHandler) cancelRequest "m4"
          "CancelReservation").replies
        = [Event.clientSendResponse "m4"
            { dynType := "*reservation.CancelReservationResponse",
              pointer := some { featureName := "CancelReservation", payload := "Accepted" } }]
      ∧ ¬ ∃ description details,
          Event.clientSendError "m4" ErrorCode.InternalError description details
            ∈ (handleIncomingRequest (reservationStation confusedHandler) cancelRequest "m4"
                "CancelReservation").trace := by
  refine ⟨rfl, by decide, ?_⟩
  rintro ⟨description, details, hmem⟩
  have htrace : (handleIncomingRequest (reservationStation confusedHandler) cancelRequest "m4"
      "CancelReservation").trace
      = [Event.handlerCall "OnCancelReservation" cancelRequest,
         Event.clientSendResponse "m4"
           { dynType := "*reservation.CancelReservationResponse",
             pointer := some { featureName := "CancelReservation", payload := "Accepted" } }] := by
    decide
  rw [htrace] at hmem
  simp at hmem

/-- C5, the code at the failing input: the reservation handler answers the call
`m5` with a nil response and an error whose message is `boom` and whose code is
InternalError.  The nil pointer is stored in the interface variable `response`,
which is then not nil, so `sendResponse` calls `client.SendResponse` with it:
the whole run is the handler call followed by a CALLRESULT, and no CALLERROR is
emitted.  Called with a nil interface and the same error, `sendResponse` does
emit the CALLERROR, with the message of the error and the code ProtocolError. -/
theorem handleIncomingRequest_handler_error_lost :
    failingHandler.method "OnCancelReservation" cancelRequest
        = (none, some { message := "boom", code := some ErrorCode.InternalError })
      ∧ handleIncomingRequest (reservationStation failingHandler) cancelRequest "m5"
          "CancelReservation"
        = { trace :=
              [Event.handlerCall "OnCancelReservation" cancelRequest,
               Event.clientSendResponse "m5"
                 { dynType := "*reservation.CancelReservationResponse", pointer := none }],
            outcome := Outcome.returned }
      ∧ sendResponse (reservationStation failingHandler) none
          (some { message := "boom", code := some ErrorCode.InternalError }) "m5"
        = { trace := [Event.clientSendError "m5" ErrorCode.ProtocolError "boom" none],
            outcome := Outcome.returned } := by
  refine ⟨rfl, by decide, by decide⟩

/-! ## The nil check before dispatch -/

/-- C10, as the code has it: on a registry that reports every dispatched action
under the profile of the package declaring it, `handleIncomingRequest` never
calls a method on a nil handler field, whatever handlers are bound and
whatever the action. -/
theorem handleIncomingRequest_no_nil_handler (cs : chargingStation) (request : Request)
    (requestId action : String)
    (hreg : ∀ (a : DispatchedAction) (profile : Profile),
      cs.client.GetProfileForFeature a.FeatureName = some profile →
      profile.Name = a.package.ProfileName) :
    (handleIncomingRequest cs request requestId action).outcome
      ≠ Outcome.panicked Panic.nilHandler := by
  cases hlook : cs.client.GetProfileForFeature action with
  | none => simp [handleIncomingRequest, hlook, notImplementedError]
  | some profile =>
    by_cases hsup : supported cs profile = false
    · simp [handleIncomingRequest, hlook, hsup, notSupportedError]
    · have hsup2 : supported cs profile = true := by
        cases hs : supported cs profile with
        | false => exact absurd hs hsup
        | true => rfl
      by_cases hex : ∃ a : DispatchedAction, action = a.FeatureName
      · obtain ⟨a, rfl⟩ := hex
        have hname := hreg a profile hlook
        have hsome : (cs.handlerOf a.package).isSome = true := by
          rw [← supported_eq_handlerOf cs profile a.package hname]; exact hsup2
        cases hbound : cs.handlerOf a.package with
        | none => simp [hbound] at hsome
        | some handler =>
          by_cases htype : request.dynType = a.requestType
          · rw [handleIncomingRequest_bound cs request requestId a profile handler hlook hsup2
              hbound htype]
            exact sendResponse_outcome cs _ _ requestId
          · simp [handleIncomingRequest, hlook, hsup2, dispatch_eq_invoke, invoke, htype]
      · have hnot : ∀ a : DispatchedAction, action ≠ a.FeatureName := by
          intro a ha
          exact hex ⟨a, ha⟩
        simp [handleIncomingRequest, hlook, hsup, dispatch_default cs request action hnot,
          notSupportedError]

/-- Witness of the amended C10: the standard registry, a station without any
handler, the call `CancelReservation`. -/
theorem handleIncomingRequest_no_nil_handler_witness :
    (handleIncomingRequest (bareStation (quietClient standardRegistry)) cancelRequest "m10"
        "CancelReservation").outcome ≠ Outcome.panicked Panic.nilHandler :=
  handleIncomingRequest_no_nil_handler (bareStation (quietClient standardRegistry))
    cancelRequest "m10" "CancelReservation"
    (by
      intro a profile h
      cases a <;> exact (Option.some.inj h) ▸ rfl)

/-- Counterexample to C10 as stated: the registry reports `CancelReservation`
under the security profile, whose handler is bound, so the guard passes; the
dispatch switch then calls `OnCancelReservation` on the reservation handler,
which is nil. -/
theorem handleIncomingRequest_no_nil_handler_counterexample :
    securityStation.client.GetProfileForFeature "CancelReservation"
        = some { Name := "security" }
      ∧ securityStation.securityHandler.isSome = true
      ∧ securityStation.reservationHandler.isSome = false
      ∧ handleIncomingRequest securityStation cancelRequest "m10" "CancelReservation"
        = { trace := [], outcome := Outcome.panicked Panic.nilHandler } := by
  refine ⟨rfl, rfl, rfl, by decide⟩

/-! ## Outbound requests -/

/-- C7: a request whose feature name has no registered profile makes
`SendRequest` return a nil response and the error `feature ... is unsupported`,
with an empty trace: `client.SendRequest` is not called, so nothing is written
to the transport, and nothing is received from the two channels. -/
theorem SendRequest_missing_profile (cs : chargingStation) (request : Request)
    (hmissing : cs.client.GetProfileForFeature request.GetFeatureName = none) :
    SendRequest cs request
      = { trace := [],
          result := SendResult.returned none (some (fmtErrorf
            ("feature " ++ request.GetFeatureName
              ++ " is unsupported on charging station (missing profile), cannot send request"))) }
    := by
  simp [SendRequest, hmissing]

/-- Witness of C7: a `StatusNotification` request on the standard registry,
which does not hold that feature. -/
theorem SendRequest_missing_profile_witness :
    (SendRequest (bareStation (quietClient standardRegistry))
        { dynType := "*availability.StatusNotificationRequest",
          featureName := "StatusNotification", payload := "" }).trace = []
      ∧ (SendRequest (bareStation (quietClient standardRegistry))
          { dynType := "*availability.StatusNotificationRequest",
            featureName := "StatusNotification", payload := "" }).result
        = SendResult.returned none (some
            { message := "feature StatusNotification is unsupported on charging station "
                ++ "(missing profile), cannot send request",
              code := none }) := by
  have h := SendRequest_missing_profile (bareStation (quietClient standardRegistry))
    { dynType := "*availability.StatusNotificationRequest",
      featureName := "StatusNotification", payload := "" } (by decide)
  rw [h]
  exact ⟨rfl, by decide⟩

/-- C8, as the code has it: `SendRequestAsync` rejects a request before
delegating to the engine exactly when `SendRequest` does or the feature name is
not one of the seven names its switch lets through (Authorize,
BootNotification, ClearedChargingLimit, DataTransfer,
FirmwareStatusNotification, Get15118EVCertificate, GetCertificateStatus). -/
theorem SendRequestAsync_rejected_iff (cs : chargingStation) (request : Request) :
    (SendRequestAsync cs request).rejected = true
      ↔ ((SendRequest cs request).rejected = true
          ∨ request.GetFeatureName ∉ asyncActions) := by
  cases hlook : cs.client.GetProfileForFeature request.GetFeatureName with
  | none =>
    simp [SendRequestAsync, SendRequest, hlook, AsyncRun.rejected, SendRun.rejected]
  | some profile =>
    by_cases hlist : request.GetFeatureName ∈ asyncActions
    · have hor : request.GetFeatureName = authorization.AuthorizeFeatureName
          ∨ request.GetFeatureName = provisioning.BootNotificationFeatureName
          ∨ request.GetFeatureName = smartcharging.ClearedChargingLimitFeatureName
          ∨ request.GetFeatureName = data.DataTransferFeatureName
          ∨ request.GetFeatureName = firmware.FirmwareStatusNotificationFeatureName
          ∨ request.GetFeatureName = iso15118.Get15118EVCertificateFeatureName
          ∨ request.GetFeatureName = iso15118.GetCertificateStatusFeatureName := by
        simpa [asyncActions] using hlist
      cases hsend : cs.client.SendRequest request with
      | none =>
        cases hchan : cs.channels with
        | none =>
          simp [SendRequestAsync, SendRequest, hlook, if_pos hor, hsend, hchan, hlist,
            AsyncRun.rejected, SendRun.rejected, Event.isDelegation]
        | some sel =>
          cases sel <;>
            simp [SendRequestAsync, SendRequest, hlook, if_pos hor, hsend, hchan, hlist,
              AsyncRun.rejected, SendRun.rejected, Event.isDelegation]
      | some err =>
        simp [SendRequestAsync, SendRequest, hlook, if_pos hor, hsend, hlist,
          AsyncRun.rejected, SendRun.rejected, Event.isDelegation]
    · have hor : ¬ (request.GetFeatureName = authorization.AuthorizeFeatureName
          ∨ request.GetFeatureName = provisioning.BootNotificationFeatureName
          ∨ request.GetFeatureName = smartcharging.ClearedChargingLimitFeatureName
          ∨ request.GetFeatureName = data.DataTransferFeatureName
          ∨ request.GetFeatureName = firmware.FirmwareStatusNotificationFeatureName
          ∨ request.GetFeatureName = iso15118.Get15118EVCertificateFeatureName
          ∨ request.GetFeatureName = iso15118.GetCertificateStatusFeatureName) := by
        simpa [asyncActions] using hlist
      simp [SendRequestAsync, hlook, if_neg hor, hlist, AsyncRun.rejected]

/-- Counterexample to C8 as stated: `TransactionEvent` is registered on the
session; `SendRequest` hands the request to the engine, `SendRequestAsync`
rejects it with `unsupported action` without calling the engine. -/
theorem SendRequestAsync_rejected_counterexample :
    (bareStation (quietClient standardRegistry)).client.GetProfileForFeature
        transactionEventRequest.GetFeatureName = some { Name := "transactions" }
      ∧ (SendRequest (bareStation (quietClient standardRegistry))
          transactionEventRequest).trace
        = [Event.clientSendRequest transactionEventRequest]
      ∧ (SendRequest (bareStation (quietClient standardRegistry))
          transactionEventRequest).rejected = false
      ∧ SendRequestAsync (bareStation (quietClient standardRegistry)) transactionEventRequest
        = { trace := [],
            result := some (fmtErrorf
              "unsupported action TransactionEvent on charging station, cannot send request"),
            completion := Completion.notStarted }
      ∧ (SendRequestAsync (bareStation (quietClient standardRegistry))
          transactionEventRequest).rejected = true := by
  refine ⟨by decide, by decide, by decide, by decide, by decide⟩

end ocpp2

namespace ocpp16

/-! ## OCPP 1.6: RemoteStopTransaction -/

/-- C9: the request constructor stores the transaction id, the confirmation
constructor stores the status, and the request, the confirmation and the
feature all report the feature name `RemoteStopTransactionFeatureName`; the
feature hands out the types of that request and of that confirmation. -/
theorem RemoteStopTransaction_constructors (transactionId : Int)
    (status : RemoteStartStopStatus) (f : RemoteStopTransactionFeature) :
    (NewRemoteStopTransactionRequest transactionId).TransactionId = transactionId
      ∧ (NewRemoteStopTransactionConfirmation status).Status = status
      ∧ (NewRemoteStopTransactionRequest transactionId).GetFeatureName
        = RemoteStopTransactionFeatureName
      ∧ (NewRemoteStopTransactionConfirmation status).GetFeatureName
        = RemoteStopTransactionFeatureName
      ∧ f.GetFeatureName = RemoteStopTransactionFeatureName
      ∧ (NewRemoteStopTransactionRequest transactionId).GetFeatureName = f.GetFeatureName
      ∧ (NewRemoteStopTransactionConfirmation status).GetFeatureName = f.GetFeatureName
      ∧ f.GetRequestType = GoType.RemoteStopTransactionRequest
      ∧ f.GetConfirmationType = GoType.RemoteStopTransactionConfirmation :=
  ⟨rfl, rfl, rfl, rfl, rfl, rfl, rfl, rfl, rfl⟩

end ocpp16
